import Mathlib

/-!
Verification of the buzzer game-state engine (src/server/game-state.ts).

The TypeScript class GameStateManager is embedded as a Lean structure
GameStateManager together with pure functions, one per method.  JS Map
objects become association lists (insertion order preserved, set updates
in place, delete removes the entry); Date.now(), uuidv4() and
Math.random() become explicit parameters of the operations that call
them.  Times are Nat milliseconds.
-/

namespace Buzzer

/-- Association list standing in for a JS Map with String keys. -/
abbrev AList (α : Type) := List (String × α)

/-- Map.get: the value stored for a key, if any. -/
def alookup {α : Type} : AList α → String → Option α
  | [], _ => none
  | (k, v) :: rest, key => if k == key then some v else alookup rest key

/-- Map.set: update the entry for the key in place, else append a new one. -/
def aset {α : Type} : AList α → String → α → AList α
  | [], key, value => [(key, value)]
  | (k, v) :: rest, key, value =>
    if k == key then (k, value) :: rest else (k, v) :: aset rest key value

/-- Map.delete: remove the entry for the key. -/
def adelete {α : Type} : AList α → String → AList α
  | [], _ => []
  | (k, v) :: rest, key => if k == key then rest else (k, v) :: adelete rest key

/-- Map.values, in insertion order. -/
def avalues {α : Type} (m : AList α) : List α := m.map Prod.snd

/-- Player record (shared/types.ts). -/
structure Player where
  id : String
  socketId : String
  displayName : String
  teamId : Option String
  isConnected : Bool
  lastSeen : Nat
deriving DecidableEq

/-- Team record (shared/types.ts); the color palette entries are strings. -/
structure Team where
  id : String
  name : String
  color : String
  score : Int
deriving DecidableEq

/-- BuzzEntry record (shared/types.ts). -/
structure BuzzEntry where
  playerId : String
  playerName : String
  teamId : Option String
  teamName : Option String
  teamColor : Option String
  timestamp : Nat
  position : Nat
deriving DecidableEq

/-- RoundState record (shared/types.ts); status is one of the strings
waiting, open, locked, evaluating, ended. -/
structure RoundState where
  status : String
  questionNumber : Nat
  startedAt : Option Nat
  lockedAt : Option Nat
  activePlayerId : Option String
  buzzQueue : List BuzzEntry
deriving DecidableEq

/-- SessionSettings record (shared/types.ts). -/
structure SessionSettings where
  teamModeEnabled : Bool
  oneBuzzPerTeam : Bool
  allowLateBuzzes : Bool
  showQueueToPlayers : Bool
  maxPlayersPerSession : Nat
  buzzCooldownMs : Nat
deriving DecidableEq

/-- RoundResult record (shared/types.ts). -/
structure RoundResult where
  questionNumber : Nat
  winnerId : Option String
  winnerName : Option String
  teamId : Option String
  buzzCount : Nat
  duration : Nat
deriving DecidableEq

/-- GameSession record (shared/types.ts); players is a Map playerId to Player. -/
structure GameSession where
  id : String
  hostSocketId : String
  createdAt : Nat
  settings : SessionSettings
  teams : List Team
  players : AList Player
  round : RoundState
  roundHistory : List RoundResult
deriving DecidableEq

/-- The private fields of class GameStateManager. -/
structure GameStateManager where
  sessions : AList GameSession
  playerToSession : AList String
  socketToPlayer : AList String
  playerBuzzTimestamps : AList Nat
deriving DecidableEq

/-- DEFAULT_SETTINGS from game-state.ts. -/
def DEFAULT_SETTINGS : SessionSettings :=
  { teamModeEnabled := false
    oneBuzzPerTeam := false
    allowLateBuzzes := true
    showQueueToPlayers := true
    maxPlayersPerSession := 50
    buzzCooldownMs := 100 }

/-- A Partial of SessionSettings: every field optional, as in the TS call sites. -/
structure PartialSettings where
  teamModeEnabled : Option Bool := none
  oneBuzzPerTeam : Option Bool := none
  allowLateBuzzes : Option Bool := none
  showQueueToPlayers : Option Bool := none
  maxPlayersPerSession : Option Nat := none
  buzzCooldownMs : Option Nat := none
deriving DecidableEq

/-- The spread merge of a base settings object with a partial override. -/
def mergeSettings (base : SessionSettings) (p : PartialSettings) : SessionSettings :=
  { teamModeEnabled := p.teamModeEnabled.getD base.teamModeEnabled
    oneBuzzPerTeam := p.oneBuzzPerTeam.getD base.oneBuzzPerTeam
    allowLateBuzzes := p.allowLateBuzzes.getD base.allowLateBuzzes
    showQueueToPlayers := p.showQueueToPlayers.getD base.showQueueToPlayers
    maxPlayersPerSession := p.maxPlayersPerSession.getD base.maxPlayersPerSession
    buzzCooldownMs := p.buzzCooldownMs.getD base.buzzCooldownMs }

/-- createInitialRoundState from game-state.ts. -/
def createInitialRoundState : RoundState :=
  { status := "waiting"
    questionNumber := 0
    startedAt := none
    lockedAt := none
    activePlayerId := none
    buzzQueue := [] }

/-- The alphabet used by generateSessionId; ambiguous characters removed. -/
def sessionIdChars : String := "ABCDEFGHJKLMNPQRSTUVWXYZ23456789"

/-- generateSessionId from game-state.ts.  The six Math.random draws are the
explicit argument rand: draw i selects index rand i of the 32-character
alphabet, exactly as Math.floor(Math.random() * chars.length) does. -/
def generateSessionId (rand : Fin 6 → Fin 32) : String :=
  String.mk ((List.finRange 6).map (fun i => sessionIdChars.toList.getD (rand i) ' '))

/-- createSession from game-state.ts.  Date.now() is the argument now; the
Math.random draws inside generateSessionId are the argument rand.  The new
session is stored under the generated code with Map.set, with no check
that the code is unused. -/
def createSession (g : GameStateManager) (hostSocketId : String)
    (rand : Fin 6 → Fin 32) (now : Nat) (settings : PartialSettings) :
    GameSession × GameStateManager :=
  let sessionId := generateSessionId rand
  let session : GameSession :=
    { id := sessionId
      hostSocketId := hostSocketId
      createdAt := now
      settings := mergeSettings DEFAULT_SETTINGS settings
      teams := []
      players := []
      round := createInitialRoundState
      roundHistory := [] }
  (session, { g with sessions := aset g.sessions sessionId session })

/-- endSession from game-state.ts: delete the reverse lookups of every player
of the session, then delete the session itself. -/
def endSession (g : GameStateManager) (sessionId : String) : GameStateManager :=
  match alookup g.sessions sessionId with
  | none => g
  | some session =>
    let g1 := (avalues session.players).foldl
      (fun acc p =>
        { acc with
          playerToSession := adelete acc.playerToSession p.id
          socketToPlayer := adelete acc.socketToPlayer p.socketId }) g
    { g1 with sessions := adelete g1.sessions sessionId }

/-- The toLowerCase() of the name check, written over the character list so
that it evaluates; it agrees with String.toLower on every string. -/
def toLowerStr (s : String) : String := String.mk (s.toList.map Char.toLower)

/-- addPlayer from game-state.ts.  Date.now() is now; the uuidv4() player id
is freshId.  Error strings are the exact TS strings. -/
def addPlayer (g : GameStateManager) (sessionId socketId displayName : String)
    (freshId : String) (now : Nat) :
    Except String (Player × GameSession) × GameStateManager :=
  match alookup g.sessions sessionId with
  | none => (Except.error "Session not found", g)
  | some session =>
    if session.players.length ≥ session.settings.maxPlayersPerSession then
      (Except.error "Session is full", g)
    else
      let existingPlayer := (avalues session.players).find?
        (fun p => toLowerStr p.displayName == toLowerStr displayName && p.isConnected)
      if existingPlayer.isSome then
        (Except.error "Name already taken", g)
      else
        let player : Player :=
          { id := freshId
            socketId := socketId
            displayName := (displayName.trim.take 20)
            teamId := none
            isConnected := true
            lastSeen := now }
        let session1 := { session with players := aset session.players freshId player }
        (Except.ok (player, session1),
          { g with
            sessions := aset g.sessions sessionId session1
            playerToSession := aset g.playerToSession freshId sessionId
            socketToPlayer := aset g.socketToPlayer socketId freshId })

/-- getPlayerBySocketId from game-state.ts.  The TS method returns the player
and the session object; the model also returns the session id under which
the session is stored, standing in for the object reference the TS code
later mutates through. -/
def getPlayerBySocketId (g : GameStateManager) (socketId : String) :
    Option (String × Player × GameSession) :=
  match alookup g.socketToPlayer socketId with
  | none => none
  | some playerId =>
    match alookup g.playerToSession playerId with
    | none => none
    | some sessionId =>
      match alookup g.sessions sessionId with
      | none => none
      | some session =>
        match alookup session.players playerId with
        | none => none
        | some player => some (sessionId, player, session)

/-- advanceQueue from game-state.ts, acting on one session. -/
def advanceQueue (session : GameSession) : GameSession :=
  let newActive := (session.round.buzzQueue.head?).map (fun b => b.playerId)
  let round1 := { session.round with activePlayerId := newActive }
  let round2 := if newActive.isNone then { round1 with status := "waiting" } else round1
  { session with round := round2 }

/-- removePlayer from game-state.ts: delete the player and its reverse
lookups, filter its entries out of the buzz queue (without renumbering),
and advance the queue if the removed player was active. -/
def removePlayer (g : GameStateManager) (sessionId playerId : String) :
    GameStateManager :=
  match alookup g.sessions sessionId with
  | none => g
  | some session =>
    let g1 :=
      match alookup session.players playerId with
      | some player => { g with socketToPlayer := adelete g.socketToPlayer player.socketId }
      | none => g
    let session1 :=
      { session with
        players := adelete session.players playerId
        round := { session.round with
          buzzQueue := session.round.buzzQueue.filter (fun b => b.playerId != playerId) } }
    let session2 :=
      if session.round.activePlayerId == some playerId then advanceQueue session1
      else session1
    { g1 with
      sessions := aset g1.sessions sessionId session2
      playerToSession := adelete g1.playerToSession playerId }

/-- startRound from game-state.ts. -/
def startRound (g : GameStateManager) (sessionId : String) (now : Nat) :
    Option RoundState × GameStateManager :=
  match alookup g.sessions sessionId with
  | none => (none, g)
  | some session =>
    let round1 : RoundState :=
      { status := "open"
        questionNumber := session.round.questionNumber + 1
        startedAt := some now
        lockedAt := none
        activePlayerId := none
        buzzQueue := [] }
    (some round1, { g with sessions := aset g.sessions sessionId ({ session with round := round1 }) })

/-- resetRound from game-state.ts. -/
def resetRound (g : GameStateManager) (sessionId : String) :
    Option RoundState × GameStateManager :=
  match alookup g.sessions sessionId with
  | none => (none, g)
  | some session =>
    let round1 : RoundState :=
      { status := "waiting"
        questionNumber := session.round.questionNumber
        startedAt := none
        lockedAt := none
        activePlayerId := none
        buzzQueue := [] }
    (some round1, { g with sessions := aset g.sessions sessionId ({ session with round := round1 }) })

/-- The rate-limit test of processBuzz: lastBuzz is truthy (a stored
timestamp other than 0) and now minus it is below the cooldown.  The
subtraction is done in Int as in JS, where it can be negative. -/
def buzzTooFast (lastBuzz : Option Nat) (now cooldown : Nat) : Bool :=
  match lastBuzz with
  | none => false
  | some t => t != 0 && decide ((now : Int) - (t : Int) < (cooldown : Int))

/-- processBuzz from game-state.ts.  Date.now() is the argument now.  Note
the per-player timestamp is written as soon as the rate-limit test passes,
before the team-exclusive and late-buzz checks. -/
def processBuzz (g : GameStateManager) (socketId : String) (now : Nat) :
    Except String BuzzEntry × GameStateManager :=
  match getPlayerBySocketId g socketId with
  | none => (Except.error "Player not found", g)
  | some (sessionId, player, session) =>
    if session.round.status != "open" && session.round.status != "locked" then
      (Except.error "Buzzer is not active", g)
    else if session.round.buzzQueue.any (fun b => b.playerId == player.id) then
      (Except.error "Already buzzed", g)
    else if buzzTooFast (alookup g.playerBuzzTimestamps player.id) now
        session.settings.buzzCooldownMs then
      (Except.error "Too fast", g)
    else
      let g1 := { g with playerBuzzTimestamps := aset g.playerBuzzTimestamps player.id now }
      if session.settings.oneBuzzPerTeam && player.teamId.isSome &&
          session.round.buzzQueue.any (fun b => b.teamId == player.teamId) then
        (Except.error "Team already buzzed", g1)
      else if session.round.status == "locked" && !session.settings.allowLateBuzzes then
        (Except.error "Buzzer is locked", g1)
      else
        let team := player.teamId.bind (fun tid => session.teams.find? (fun t => t.id == tid))
        let buzzEntry : BuzzEntry :=
          { playerId := player.id
            playerName := player.displayName
            teamId := player.teamId
            teamName := team.map (fun t => t.name)
            teamColor := team.map (fun t => t.color)
            timestamp := now
            position := session.round.buzzQueue.length + 1 }
        let round1 := { session.round with buzzQueue := session.round.buzzQueue ++ [buzzEntry] }
        let round2 :=
          if session.round.status == "open" then
            { round1 with
              status := "locked"
              lockedAt := some now
              activePlayerId := some player.id }
          else round1
        (Except.ok buzzEntry,
          { g1 with sessions := aset g1.sessions sessionId ({ session with round := round2 }) })

/-- The in-place team.score += delta of updateTeamScore: the first team with
the given id (teams.find) has its score changed, every other team is kept. -/
def updateTeamScoreList : List Team → String → Int → List Team
  | [], _, _ => []
  | t :: ts, teamId, delta =>
    if t.id == teamId then { t with score := t.score + delta } :: ts
    else t :: updateTeamScoreList ts teamId delta

/-- updateTeamScore from game-state.ts. -/
def updateTeamScore (g : GameStateManager) (sessionId teamId : String) (delta : Int) :
    Option Team × GameStateManager :=
  match alookup g.sessions sessionId with
  | none => (none, g)
  | some session =>
    match session.teams.find? (fun t => t.id == teamId) with
    | none => (none, g)
    | some team =>
      let session1 := { session with teams := updateTeamScoreList session.teams teamId delta }
      (some { team with score := team.score + delta },
        { g with sessions := aset g.sessions sessionId session1 })

/-- markCorrect from game-state.ts.  Date.now() is now.  The call
this.updateTeamScore(sessionId, teamId, 1) made when the active player has
a team only changes session.teams, so it is inlined as
updateTeamScoreList (a find miss is a no-op in both forms). -/
def markCorrect (g : GameStateManager) (sessionId : String) (now : Nat) :
    Option RoundResult × GameStateManager :=
  match alookup g.sessions sessionId with
  | none => (none, g)
  | some session =>
    match session.round.activePlayerId with
    | none => (none, g)
    | some activeId =>
      let activePlayer := alookup session.players activeId
      let result : RoundResult :=
        { questionNumber := session.round.questionNumber
          winnerId := some activeId
          winnerName := activePlayer.map (fun p => p.displayName)
          teamId := activePlayer.bind (fun p => p.teamId)
          buzzCount := session.round.buzzQueue.length
          duration := match session.round.startedAt with
            | some s => now - s
            | none => 0 }
      let teams1 :=
        match activePlayer.bind (fun p => p.teamId) with
        | some tid => updateTeamScoreList session.teams tid 1
        | none => session.teams
      let session1 :=
        { session with
          teams := teams1
          roundHistory := session.roundHistory ++ [result]
          round :=
            { status := "ended"
              questionNumber := session.round.questionNumber
              startedAt := none
              lockedAt := none
              activePlayerId := none
              buzzQueue := [] } }
      (some result, { g with sessions := aset g.sessions sessionId session1 })

/-- The position renumbering loop buzzQueue.forEach((b, i) => b.position = i + 1),
unrolled structurally: entry at offset i from the start gets position i + 1. -/
def renumberFrom (i : Nat) : List BuzzEntry → List BuzzEntry
  | [] => []
  | b :: bs => { b with position := i + 1 } :: renumberFrom (i + 1) bs

/-- Renumber a queue so positions run 1, 2, ... in order. -/
def renumber (q : List BuzzEntry) : List BuzzEntry := renumberFrom 0 q

/-- markPass from game-state.ts: remove the active player from the queue,
renumber, and make the new queue head active (or null).  The round status
field is not touched. -/
def markPass (g : GameStateManager) (sessionId : String) :
    Option (String × Option String) × GameStateManager :=
  match alookup g.sessions sessionId with
  | none => (none, g)
  | some session =>
    match session.round.activePlayerId with
    | none => (none, g)
    | some passedPlayerId =>
      let queue1 := renumber
        (session.round.buzzQueue.filter (fun b => b.playerId != passedPlayerId))
      let newActive := (queue1.head?).map (fun b => b.playerId)
      let session1 :=
        { session with round :=
          { session.round with buzzQueue := queue1, activePlayerId := newActive } }
      (some (passedPlayerId, newActive),
        { g with sessions := aset g.sessions sessionId session1 })

/-- skipPlayer from game-state.ts: remove the player from the queue,
renumber, and advance the queue if the skipped player was active. -/
def skipPlayer (g : GameStateManager) (sessionId playerId : String) :
    Bool × GameStateManager :=
  match alookup g.sessions sessionId with
  | none => (false, g)
  | some session =>
    let queue1 := renumber
      (session.round.buzzQueue.filter (fun b => b.playerId != playerId))
    let session1 :=
      { session with round := { session.round with buzzQueue := queue1 } }
    let session2 :=
      if session.round.activePlayerId == some playerId then advanceQueue session1
      else session1
    (true, { g with sessions := aset g.sessions sessionId session2 })

/-- The last-activity computation of cleanupStaleSessions:
Math.max(session.createdAt, ...players.map(p => p.lastSeen)). -/
def lastActivity (session : GameSession) : Nat :=
  ((avalues session.players).map (fun p => p.lastSeen)).foldl max session.createdAt

/-- cleanupStaleSessions from game-state.ts.  Date.now() is now; the default
maxAgeMs at the TS call site is 3600000.  Sessions whose last activity is
strictly more than maxAgeMs in the past are ended. -/
def cleanupStaleSessions (g : GameStateManager) (now maxAgeMs : Nat) :
    GameStateManager :=
  g.sessions.foldl
    (fun acc entry =>
      if now - lastActivity entry.2 > maxAgeMs then endSession acc entry.1 else acc) g

/-! ### Association list lemmas -/

theorem alookup_aset_self {α : Type} (m : AList α) (k : String) (v : α) :
    alookup (aset m k v) k = some v := by
  induction m with
  | nil => simp [aset, alookup]
  | cons e rest ih =>
    obtain ⟨k0, v0⟩ := e
    by_cases h : k0 = k
    · simp [aset, alookup, h]
    · simp [aset, alookup, h, ih]

theorem alookup_aset_ne {α : Type} (m : AList α) {k k' : String} (v : α)
    (h : k' ≠ k) : alookup (aset m k v) k' = alookup m k' := by
  have h2 : k ≠ k' := Ne.symm h
  induction m with
  | nil => simp [aset, alookup, h2]
  | cons e rest ih =>
    obtain ⟨k0, v0⟩ := e
    by_cases h0 : k0 = k
    · subst h0
      simp [aset, alookup, h2]
    · simp only [aset, beq_iff_eq, h0, if_false, alookup]
      by_cases h1 : k0 = k'
      · simp [h1]
      · simp [h1, ih]

theorem alookup_adelete_ne {α : Type} (m : AList α) {k k' : String}
    (h : k' ≠ k) : alookup (adelete m k) k' = alookup m k' := by
  have h2 : k ≠ k' := Ne.symm h
  induction m with
  | nil => simp [adelete]
  | cons e rest ih =>
    obtain ⟨k0, v0⟩ := e
    by_cases h0 : k0 = k
    · subst h0
      simp [adelete, alookup, h2]
    · simp only [adelete, beq_iff_eq, h0, if_false, alookup]
      by_cases h1 : k0 = k'
      · simp [h1]
      · simp [h1, ih]

theorem alookup_mem {α : Type} {m : AList α} {k : String} {v : α}
    (h : alookup m k = some v) : (k, v) ∈ m := by
  induction m with
  | nil => simp [alookup] at h
  | cons e rest ih =>
    obtain ⟨k0, v0⟩ := e
    by_cases h0 : k0 = k
    · subst h0
      simp only [alookup, beq_self_eq_true, if_true, Option.some.injEq] at h
      subst h
      exact List.mem_cons_self _ _
    · simp only [alookup, beq_iff_eq, h0, if_false] at h
      exact List.mem_cons_of_mem _ (ih h)

theorem alookup_adelete_self {α : Type} (m : AList α) (k : String)
    (hnd : (m.map Prod.fst).Nodup) : alookup (adelete m k) k = none := by
  induction m with
  | nil => simp [adelete, alookup]
  | cons e rest ih =>
    obtain ⟨k0, v0⟩ := e
    simp only [List.map_cons, List.nodup_cons] at hnd
    by_cases h0 : k0 = k
    · subst h0
      simp only [adelete, beq_self_eq_true, if_true]
      cases hr : alookup rest k0 with
      | none => rfl
      | some v =>
        exact (hnd.1 (List.mem_map_of_mem Prod.fst (alookup_mem hr))).elim
    · simp [adelete, alookup, h0, ih hnd.2]

theorem alookup_of_mem_nodup {α : Type} {m : AList α} {k : String} {v : α}
    (hnd : (m.map Prod.fst).Nodup) (h : (k, v) ∈ m) : alookup m k = some v := by
  induction m with
  | nil => simp at h
  | cons e rest ih =>
    obtain ⟨k0, v0⟩ := e
    simp only [List.map_cons, List.nodup_cons] at hnd
    rcases List.mem_cons.1 h with h1 | h1
    · injection h1 with hk hv
      subst hk
      subst hv
      simp [alookup]
    · have hk : k0 ≠ k := by
        rintro rfl
        exact hnd.1 (List.mem_map_of_mem Prod.fst h1)
      simp [alookup, hk, ih hnd.2 h1]

theorem mem_aset {α : Type} {m : AList α} {k : String} {v : α} {e : String × α}
    (h : e ∈ aset m k v) : e ∈ m ∨ e = (k, v) := by
  induction m with
  | nil =>
    simp only [aset, List.mem_singleton] at h
    exact Or.inr h
  | cons e0 rest ih =>
    obtain ⟨k0, v0⟩ := e0
    by_cases h0 : k0 = k
    · subst h0
      simp only [aset, beq_self_eq_true, if_true, List.mem_cons] at h
      rcases h with h | h
      · exact Or.inr h
      · exact Or.inl (List.mem_cons_of_mem _ h)
    · simp only [aset, beq_iff_eq, h0, if_false, List.mem_cons] at h
      rcases h with h | h
      · exact Or.inl (List.mem_cons.2 (Or.inl h))
      · rcases ih h with h1 | h1
        · exact Or.inl (List.mem_cons_of_mem _ h1)
        · exact Or.inr h1

/-! ### processBuzz helper lemmas -/

theorem getPlayerBySocketId_session {g : GameStateManager} {socketId sessionId : String}
    {player : Player} {session : GameSession}
    (h : getPlayerBySocketId g socketId = some (sessionId, player, session)) :
    alookup g.sessions sessionId = some session := by
  unfold getPlayerBySocketId at h
  cases h1 : alookup g.socketToPlayer socketId with
  | none =>
    simp only [h1] at h
    exact Option.noConfusion h
  | some playerId =>
    simp only [h1] at h
    cases h2 : alookup g.playerToSession playerId with
    | none =>
      simp only [h2] at h
      exact Option.noConfusion h
    | some sessionId0 =>
      simp only [h2] at h
      cases h3 : alookup g.sessions sessionId0 with
      | none =>
        simp only [h3] at h
        exact Option.noConfusion h
      | some session0 =>
        simp only [h3] at h
        cases h4 : alookup session0.players playerId with
        | none =>
          simp only [h4] at h
          exact Option.noConfusion h
        | some player0 =>
          simp only [h4, Option.some.injEq, Prod.mk.injEq] at h
          obtain ⟨rfl, -, rfl⟩ := h
          exact h3

/-- Every rejection path of processBuzz: the sessions registry and both
reverse-lookup maps are untouched, and the timestamp map is untouched on
the resolution, phase, duplicate and rate-limit rejections. -/
theorem processBuzz_error_state (g : GameStateManager) (socketId : String) (now : Nat)
    (e : String) (g1 : GameStateManager)
    (h : processBuzz g socketId now = (Except.error e, g1)) :
    g1.sessions = g.sessions ∧ g1.playerToSession = g.playerToSession ∧
      g1.socketToPlayer = g.socketToPlayer ∧
      ((e = "Player not found" ∨ e = "Buzzer is not active" ∨ e = "Already buzzed" ∨
          e = "Too fast") →
        g1.playerBuzzTimestamps = g.playerBuzzTimestamps) := by
  cases hg : getPlayerBySocketId g socketId with
  | none =>
    simp only [processBuzz, hg] at h
    injection h with h1 h2
    subst h2
    exact ⟨rfl, rfl, rfl, fun _ => rfl⟩
  | some t =>
    obtain ⟨sessionId, player, session⟩ := t
    simp only [processBuzz, hg] at h
    split at h
    · injection h with h1 h2
      subst h2
      exact ⟨rfl, rfl, rfl, fun _ => rfl⟩
    · split at h
      · injection h with h1 h2
        subst h2
        exact ⟨rfl, rfl, rfl, fun _ => rfl⟩
      · split at h
        · injection h with h1 h2
          subst h2
          exact ⟨rfl, rfl, rfl, fun _ => rfl⟩
        · split at h
          · injection h with h1 h2
            subst h2
            injection h1 with h1
            subst h1
            refine ⟨rfl, rfl, rfl, fun hd => ?_⟩
            rcases hd with hd | hd | hd | hd <;> exact absurd hd (by decide)
          · split at h
            · injection h with h1 h2
              subst h2
              injection h1 with h1
              subst h1
              refine ⟨rfl, rfl, rfl, fun hd => ?_⟩
              rcases hd with hd | hd | hd | hd <;> exact absurd hd (by decide)
            · injection h with h1 h2
              exact Except.noConfusion h1

/-- The accepting path of processBuzz: the returned entry carries the server
timestamp and position queue length plus one, the entry is appended to the
queue of the session of the buzzing player, the timestamp map records the
buzz, and the round fields other than the queue change only on the first
buzz of an open round, which locks it. -/
theorem processBuzz_ok_state (g : GameStateManager) (socketId : String) (now : Nat)
    (sessionId : String) (player : Player) (session : GameSession)
    (entry : BuzzEntry) (g1 : GameStateManager)
    (hg : getPlayerBySocketId g socketId = some (sessionId, player, session))
    (h : processBuzz g socketId now = (Except.ok entry, g1)) :
    entry.playerId = player.id ∧
    entry.playerName = player.displayName ∧
    entry.timestamp = now ∧
    entry.position = session.round.buzzQueue.length + 1 ∧
    ∃ round2,
      g1 = { g with
        playerBuzzTimestamps := aset g.playerBuzzTimestamps player.id now
        sessions := aset g.sessions sessionId { session with round := round2 } } ∧
      round2.buzzQueue = session.round.buzzQueue ++ [entry] ∧
      round2.questionNumber = session.round.questionNumber ∧
      round2.startedAt = session.round.startedAt ∧
      (session.round.status = "open" →
        round2.status = "locked" ∧ round2.lockedAt = some now ∧
        round2.activePlayerId = some player.id) ∧
      (session.round.status ≠ "open" →
        round2.status = session.round.status ∧
        round2.lockedAt = session.round.lockedAt ∧
        round2.activePlayerId = session.round.activePlayerId) := by
  simp only [processBuzz, hg] at h
  split at h
  · injection h with h1 h2
    exact Except.noConfusion h1
  · split at h
    · injection h with h1 h2
      exact Except.noConfusion h1
    · split at h
      · injection h with h1 h2
        exact Except.noConfusion h1
      · split at h
        · injection h with h1 h2
          exact Except.noConfusion h1
        · split at h
          · injection h with h1 h2
            exact Except.noConfusion h1
          · injection h with h1 h2
            injection h1 with h1
            subst h1
            subst h2
            refine ⟨rfl, rfl, rfl, rfl, _, rfl, ?_, ?_, ?_, ?_, ?_⟩
            · split <;> rfl
            · split <;> rfl
            · split <;> rfl
            · intro hopen
              simp [hopen]
            · intro hne
              simp [hne]

/-! ### Queue position invariant -/

/-- The queue positions are exactly 1..k in queue order. -/
def positionsOk (q : List BuzzEntry) : Prop :=
  q.map (fun b => b.position) = List.range' 1 q.length

/-- Every live session of the manager has a well-positioned queue. -/
def queuesOk (g : GameStateManager) : Prop :=
  ∀ e ∈ g.sessions, positionsOk e.2.round.buzzQueue

/-- Folding any sequence of buzz calls (socket id and server time each)
through processBuzz. -/
def runBuzzes (g : GameStateManager) (calls : List (String × Nat)) :
    GameStateManager :=
  calls.foldl (fun acc c => (processBuzz acc c.1 c.2).2) g

theorem positionsOk_append {q : List BuzzEntry} {b : BuzzEntry}
    (h : positionsOk q) (hb : b.position = q.length + 1) :
    positionsOk (q ++ [b]) := by
  unfold positionsOk at h ⊢
  rw [List.map_append, h, List.length_append]
  simp [hb, List.range'_1_concat, Nat.add_comm]

theorem queuesOk_processBuzz (g : GameStateManager) (socketId : String) (now : Nat)
    (h : queuesOk g) : queuesOk (processBuzz g socketId now).2 := by
  cases hres : processBuzz g socketId now with
  | mk r g1 =>
    cases r with
    | error e =>
      have hs := (processBuzz_error_state g socketId now e g1 hres).1
      intro e0 he0
      rw [hs] at he0
      exact h e0 he0
    | ok entry =>
      cases hg : getPlayerBySocketId g socketId with
      | none =>
        rw [show processBuzz g socketId now = (Except.error "Player not found", g) from by
          simp [processBuzz, hg]] at hres
        exact absurd hres (by simp)
      | some t =>
        obtain ⟨sessionId, player, session⟩ := t
        obtain ⟨hpid, hpname, hts, hpos, round2, hg1, hq, -, -, -, -⟩ :=
          processBuzz_ok_state g socketId now sessionId player session entry g1 hg hres
        subst hg1
        intro e0 he0
        rcases mem_aset he0 with hmem | heq
        · exact h e0 hmem
        · subst heq
          have hold : positionsOk session.round.buzzQueue :=
            h (sessionId, session) (alookup_mem (getPlayerBySocketId_session hg))
          dsimp only
          rw [hq]
          exact positionsOk_append hold hpos

/-! ### Concrete example states -/

/-- A teamless connected player used by several witnesses. -/
def pA : Player :=
  { id := "PA", socketId := "sa", displayName := "Alice", teamId := none,
    isConnected := true, lastSeen := 0 }

/-- A one-player session with an open round, question 1, empty queue. -/
def sessC1 : GameSession :=
  { id := "S1", hostSocketId := "h", createdAt := 0, settings := DEFAULT_SETTINGS,
    teams := [], players := [("PA", pA)],
    round := { status := "open", questionNumber := 1, startedAt := some 0,
               lockedAt := none, activePlayerId := none, buzzQueue := [] },
    roundHistory := [] }

/-- The manager holding sessC1 with its reverse lookups. -/
def gC1 : GameStateManager :=
  { sessions := [("S1", sessC1)], playerToSession := [("PA", "S1")],
    socketToPlayer := [("sa", "PA")], playerBuzzTimestamps := [] }

/-- The entry produced by the buzz of pA at time 500 on gC1. -/
def entryC1 : BuzzEntry :=
  { playerId := "PA", playerName := "Alice", teamId := none, teamName := none,
    teamColor := none, timestamp := 500, position := 1 }

/-- The manager after that buzz. -/
def gC1r : GameStateManager := (processBuzz gC1 "sa" 500).2

/-- A manager with no sessions at all. -/
def gEmpty : GameStateManager :=
  { sessions := [], playerToSession := [], socketToPlayer := [],
    playerBuzzTimestamps := [] }

/-! ### Claim C1 -/

/-- C1: an accepted buzz is stamped with the server time, gets position
queue length + 1 and is appended; the first accepted buzz of an open round
locks the round, sets lockedAt and makes the buzzer active, later accepted
buzzes (round already locked) append without changing phase, lock time or
active player; and across any sequence of buzz calls, every session queue
whose positions were exactly 1..k keeps positions exactly 1..k in
acceptance order. -/
theorem processBuzz_accept_ordering :
    (∀ (g : GameStateManager) (socketId : String) (now : Nat) (sessionId : String)
      (player : Player) (session : GameSession) (entry : BuzzEntry)
      (g1 : GameStateManager),
      getPlayerBySocketId g socketId = some (sessionId, player, session) →
      processBuzz g socketId now = (Except.ok entry, g1) →
      entry.timestamp = now ∧
      entry.playerId = player.id ∧
      entry.position = session.round.buzzQueue.length + 1 ∧
      (alookup g1.sessions sessionId).map (fun s => s.round.buzzQueue) =
        some (session.round.buzzQueue ++ [entry]) ∧
      (session.round.status = "open" →
        (alookup g1.sessions sessionId).map (fun s => s.round.status) = some "locked" ∧
        (alookup g1.sessions sessionId).map (fun s => s.round.lockedAt) =
          some (some now) ∧
        (alookup g1.sessions sessionId).map (fun s => s.round.activePlayerId) =
          some (some player.id)) ∧
      (session.round.status = "locked" →
        (alookup g1.sessions sessionId).map (fun s => s.round.status) = some "locked" ∧
        (alookup g1.sessions sessionId).map (fun s => s.round.lockedAt) =
          some session.round.lockedAt ∧
        (alookup g1.sessions sessionId).map (fun s => s.round.activePlayerId) =
          some session.round.activePlayerId)) ∧
    (∀ (g : GameStateManager) (calls : List (String × Nat)),
      queuesOk g → queuesOk (runBuzzes g calls)) := by
  constructor
  · intro g socketId now sessionId player session entry g1 hg hres
    obtain ⟨hpid, hpname, hts, hpos, round2, hg1, hq, hqn, hsa, hopen, hne⟩ :=
      processBuzz_ok_state g socketId now sessionId player session entry g1 hg hres
    subst hg1
    have hlook : alookup (aset g.sessions sessionId { session with round := round2 })
        sessionId = some { session with round := round2 } := alookup_aset_self _ _ _
    refine ⟨hts, hpid, hpos, ?_, ?_, ?_⟩
    · simp [hlook, hq]
    · intro hopen2
      obtain ⟨h1, h2, h3⟩ := hopen hopen2
      simp [hlook, h1, h2, h3]
    · intro hlocked
      have hne2 : session.round.status ≠ "open" := by
        rw [hlocked]
        decide
      obtain ⟨h1, h2, h3⟩ := hne hne2
      simp [hlook, h1, h2, h3, hlocked]
  · intro g calls h
    induction calls generalizing g with
    | nil => exact h
    | cons c rest ih =>
      simp only [runBuzzes, List.foldl] at ih ⊢
      exact ih _ (queuesOk_processBuzz g c.1 c.2 h)

/-- Witness for C1 at the concrete state gC1: the buzz of Alice at time 500
is accepted at position 1 and locks the round, and a one-call run keeps the
queue positions exact. -/
theorem processBuzz_accept_ordering_witness :
    entryC1.timestamp = 500 ∧ entryC1.playerId = pA.id ∧
    entryC1.position = sessC1.round.buzzQueue.length + 1 ∧
    (alookup gC1r.sessions "S1").map (fun s => s.round.buzzQueue) =
      some (sessC1.round.buzzQueue ++ [entryC1]) ∧
    (alookup gC1r.sessions "S1").map (fun s => s.round.status) = some "locked" ∧
    (alookup gC1r.sessions "S1").map (fun s => s.round.lockedAt) = some (some 500) ∧
    (alookup gC1r.sessions "S1").map (fun s => s.round.activePlayerId) =
      some (some pA.id) ∧
    queuesOk (runBuzzes gC1 [("sa", 500)]) := by
  obtain ⟨h1, h2, h3, h4, h5, -⟩ :=
    processBuzz_accept_ordering.1 gC1 "sa" 500 "S1" pA sessC1 entryC1 gC1r rfl rfl
  obtain ⟨h6, h7, h8⟩ := h5 rfl
  exact ⟨h1, h2, h3, h4, h6, h7, h8,
    processBuzz_accept_ordering.2 gC1 [("sa", 500)]
      (by unfold queuesOk positionsOk; decide)⟩

/-! ### Claim C10 -/

/-- C10: every rejection path of processBuzz (player not resolved, buzzer
inactive, duplicate buzz, rate limited, team already buzzed, buzzer
locked) leaves the sessions registry, and with it every session round
(status, questionNumber, startedAt, lockedAt, activePlayerId, buzzQueue),
exactly as it was. -/
theorem processBuzz_reject_preserves_round :
    ∀ (g : GameStateManager) (socketId : String) (now : Nat) (e : String)
      (g1 : GameStateManager),
      processBuzz g socketId now = (Except.error e, g1) →
      g1.sessions = g.sessions :=
  fun g socketId now e g1 h => (processBuzz_error_state g socketId now e g1 h).1

/-- Witness for C10: a buzz from an unknown socket is rejected and the
registry is untouched. -/
theorem processBuzz_reject_preserves_round_witness :
    (processBuzz gEmpty "nobody" 0).2.sessions = gEmpty.sessions :=
  processBuzz_reject_preserves_round gEmpty "nobody" 0 "Player not found"
    (processBuzz gEmpty "nobody" 0).2 rfl

/-! ### Claim C2 -/

theorem processBuzz_too_fast_iff (g : GameStateManager) (socketId : String) (now : Nat)
    (sessionId : String) (player : Player) (session : GameSession)
    (hg : getPlayerBySocketId g socketId = some (sessionId, player, session))
    (hst : session.round.status = "open" ∨ session.round.status = "locked")
    (hdup : (session.round.buzzQueue.any fun b => b.playerId == player.id) = false) :
    ((processBuzz g socketId now).1 = Except.error "Too fast" ↔
      buzzTooFast (alookup g.playerBuzzTimestamps player.id) now
        session.settings.buzzCooldownMs = true) ∧
    (processBuzz g socketId now).2.playerBuzzTimestamps =
      (if buzzTooFast (alookup g.playerBuzzTimestamps player.id) now
          session.settings.buzzCooldownMs
       then g.playerBuzzTimestamps
       else aset g.playerBuzzTimestamps player.id now) := by
  have hc1 : (session.round.status != "open" && session.round.status != "locked") = false := by
    rcases hst with h | h <;> simp [h]
  simp only [processBuzz, hg, hc1, Bool.false_eq_true, if_false, hdup]
  by_cases hrl : buzzTooFast (alookup g.playerBuzzTimestamps player.id) now
      session.settings.buzzCooldownMs = true
  · simp [hrl]
  · have hrl0 : buzzTooFast (alookup g.playerBuzzTimestamps player.id) now
        session.settings.buzzCooldownMs = false := eq_false_of_ne_true hrl
    simp only [hrl0, Bool.false_eq_true, if_false]
    constructor
    · constructor
      · intro habs
        exfalso
        revert habs
        split
        · intro habs
          injection habs with habs
          exact absurd habs (by decide)
        · split
          · intro habs
            injection habs with habs
            exact absurd habs (by decide)
          · intro habs
            exact Except.noConfusion habs
      · intro habs
        exact habs.elim
    · split
      · rfl
      · split <;> rfl

/-- C2 amended: processBuzz rejects with the rate-limit error exactly when
the elapsed time since the timestamp recorded for the player is below the
configured cooldown (default 100 ms); but the recorded timestamp is the
time of the last attempt that passed the rate-limit check, not of the last
accepted buzz: it is written before the team-exclusive and late-buzz
checks, so an attempt rejected as team-already-buzzed or buzzer-locked
also refreshes it, while attempts rejected earlier (player unresolved,
buzzer inactive, duplicate, or rate limited) leave it unchanged. -/
theorem processBuzz_rate_limit_recorded :
    (∀ (g : GameStateManager) (socketId : String) (now : Nat) (sessionId : String)
      (player : Player) (session : GameSession),
      getPlayerBySocketId g socketId = some (sessionId, player, session) →
      (session.round.status = "open" ∨ session.round.status = "locked") →
      (session.round.buzzQueue.any fun b => b.playerId == player.id) = false →
      ((processBuzz g socketId now).1 = Except.error "Too fast" ↔
        buzzTooFast (alookup g.playerBuzzTimestamps player.id) now
          session.settings.buzzCooldownMs = true) ∧
      (processBuzz g socketId now).2.playerBuzzTimestamps =
        (if buzzTooFast (alookup g.playerBuzzTimestamps player.id) now
            session.settings.buzzCooldownMs
         then g.playerBuzzTimestamps
         else aset g.playerBuzzTimestamps player.id now)) ∧
    (∀ (g : GameStateManager) (socketId : String) (now : Nat) (e : String)
      (g1 : GameStateManager),
      processBuzz g socketId now = (Except.error e, g1) →
      (e = "Player not found" ∨ e = "Buzzer is not active" ∨ e = "Already buzzed" ∨
        e = "Too fast") →
      g1.playerBuzzTimestamps = g.playerBuzzTimestamps) ∧
    DEFAULT_SETTINGS.buzzCooldownMs = 100 :=
  ⟨processBuzz_too_fast_iff,
   fun g socketId now e g1 h hd =>
     (processBuzz_error_state g socketId now e g1 h).2.2.2 hd,
   rfl⟩

/-- Witness for C2 at concrete states: Alice with an empty timestamp map is
not rate limited, and a buzz from an unknown socket leaves the timestamp
map unchanged. -/
theorem processBuzz_rate_limit_recorded_witness :
    (((processBuzz gC1 "sa" 500).1 = Except.error "Too fast" ↔
        buzzTooFast (alookup gC1.playerBuzzTimestamps pA.id) 500
          sessC1.settings.buzzCooldownMs = true) ∧
      (processBuzz gC1 "sa" 500).2.playerBuzzTimestamps =
        (if buzzTooFast (alookup gC1.playerBuzzTimestamps pA.id) 500
            sessC1.settings.buzzCooldownMs
         then gC1.playerBuzzTimestamps
         else aset gC1.playerBuzzTimestamps pA.id 500)) ∧
    (processBuzz gEmpty "nobody" 0).2.playerBuzzTimestamps =
      gEmpty.playerBuzzTimestamps :=
  ⟨processBuzz_rate_limit_recorded.1 gC1 "sa" 500 "S1" pA sessC1 rfl (Or.inl rfl) rfl,
   processBuzz_rate_limit_recorded.2.1 gEmpty "nobody" 0 "Player not found"
     (processBuzz gEmpty "nobody" 0).2 rfl (Or.inl rfl)⟩

/-- A team used by the C2 counterexample scenario. -/
def teamT1 : Team := { id := "T1", name := "Reds", color := "#FF2D55", score := 0 }

/-- Ann, on team T1. -/
def pAnn : Player :=
  { id := "PA2", socketId := "sa2", displayName := "Ann", teamId := some "T1",
    isConnected := true, lastSeen := 0 }

/-- Bob, on team T1. -/
def pBob : Player :=
  { id := "PB", socketId := "sb", displayName := "Bob", teamId := some "T1",
    isConnected := true, lastSeen := 0 }

/-- Settings with the one-buzz-per-team rule on and the default 100 ms cooldown. -/
def settingsC2 : SessionSettings :=
  { teamModeEnabled := true, oneBuzzPerTeam := true, allowLateBuzzes := true,
    showQueueToPlayers := true, maxPlayersPerSession := 50, buzzCooldownMs := 100 }

/-- Session for the C2 counterexample: open round, Ann and Bob share T1. -/
def sessC2 : GameSession :=
  { id := "S2", hostSocketId := "h", createdAt := 0, settings := settingsC2,
    teams := [teamT1], players := [("PA2", pAnn), ("PB", pBob)],
    round := { status := "open", questionNumber := 1, startedAt := some 0,
               lockedAt := none, activePlayerId := none, buzzQueue := [] },
    roundHistory := [] }

/-- Initial manager of the C2 scenario. -/
def gC2a : GameStateManager :=
  { sessions := [("S2", sessC2)], playerToSession := [("PA2", "S2"), ("PB", "S2")],
    socketToPlayer := [("sa2", "PA2"), ("sb", "PB")], playerBuzzTimestamps := [] }

/-- After Bob buzzes at t = 5 (accepted, wins round 1). -/
def gC2b : GameStateManager := (processBuzz gC2a "sb" 5).2

/-- After the host marks Bob correct at t = 10. -/
def gC2c : GameStateManager := (markCorrect gC2b "S2" 10).2

/-- After the host starts round 2 at t = 100. -/
def gC2d : GameStateManager := (startRound gC2c "S2" 100).2

/-- After Ann buzzes at t = 200 (accepted, locks round 2). -/
def gC2e : GameStateManager := (processBuzz gC2d "sa2" 200).2

/-- After Bob tries at t = 210 and is rejected as team-already-buzzed. -/
def gC2f : GameStateManager := (processBuzz gC2e "sb" 210).2

/-- After the host starts round 3 at t = 300. -/
def gC2g : GameStateManager := (startRound gC2f "S2" 300).2

/-- The entry of the accepted buzz of Bob at t = 5. -/
def entryC2 : BuzzEntry :=
  { playerId := "PB", playerName := "Bob", teamId := some "T1",
    teamName := some "Reds", teamColor := some "#FF2D55", timestamp := 5,
    position := 1 }

/-- Counterexample to C2 as stated: the only accepted buzz of Bob is at
t = 5; his attempt at t = 210 is rejected (team already buzzed) yet
refreshes his rate-limit stamp to 210; so at t = 305 — 300 ms after his
last accepted buzz, round 3 open with an empty queue, an
otherwise-admissible attempt — he is still rejected with the rate-limit
error, although the cooldown is 100 ms. -/
theorem processBuzz_rate_limit_counterexample :
    (processBuzz gC2a "sb" 5).1 = Except.ok entryC2 ∧
    (processBuzz gC2e "sb" 210).1 = Except.error "Team already buzzed" ∧
    alookup gC2g.playerBuzzTimestamps "PB" = some 210 ∧
    (alookup gC2g.sessions "S2").map (fun s => s.round.status) = some "open" ∧
    (alookup gC2g.sessions "S2").map (fun s => s.round.buzzQueue) = some [] ∧
    settingsC2.buzzCooldownMs ≤ 305 - 5 ∧
    (processBuzz gC2g "sb" 305).1 = Except.error "Too fast" :=
  ⟨rfl, rfl, rfl, rfl, rfl, by decide, rfl⟩

/-! ### Renumbering lemmas -/

/-- All fields of a BuzzEntry except its position. -/
def entryData (b : BuzzEntry) :
    String × String × Option String × Option String × Option String × Nat :=
  (b.playerId, b.playerName, b.teamId, b.teamName, b.teamColor, b.timestamp)

theorem length_renumberFrom (q : List BuzzEntry) :
    ∀ i, (renumberFrom i q).length = q.length := by
  induction q with
  | nil => intro i; rfl
  | cons b bs ih =>
    intro i
    simp only [renumberFrom, List.length_cons, ih (i + 1)]

theorem renumberFrom_positions (q : List BuzzEntry) :
    ∀ i, (renumberFrom i q).map (fun b => b.position) = List.range' (i + 1) q.length := by
  induction q with
  | nil => intro i; rfl
  | cons b bs ih =>
    intro i
    simp only [renumberFrom, List.map_cons, List.length_cons, ih (i + 1),
      List.range'_succ]

theorem positionsOk_renumber (q : List BuzzEntry) : positionsOk (renumber q) := by
  unfold positionsOk renumber
  rw [renumberFrom_positions q 0, length_renumberFrom q 0]

theorem renumber_positions (q : List BuzzEntry) :
    (renumber q).map (fun b => b.position) = List.range' 1 q.length := by
  unfold renumber
  rw [renumberFrom_positions q 0]

theorem renumber_data (q : List BuzzEntry) :
    (renumber q).map entryData = q.map entryData := by
  unfold renumber
  suffices h : ∀ i, (renumberFrom i q).map entryData = q.map entryData from h 0
  induction q with
  | nil => intro i; rfl
  | cons b bs ih =>
    intro i
    simp only [renumberFrom, List.map_cons, ih (i + 1)]
    rfl

theorem advanceQueue_queue (session : GameSession) :
    (advanceQueue session).round.buzzQueue = session.round.buzzQueue := by
  unfold advanceQueue
  dsimp only
  split <;> rfl

/-- The full effect of markPass when the session exists and a player is
active: remove that player from the queue, renumber, promote the new head. -/
theorem markPass_core (g : GameStateManager) (sessionId : String) (session : GameSession)
    (activeId : String) (hs : alookup g.sessions sessionId = some session)
    (ha : session.round.activePlayerId = some activeId) :
    ∃ session1,
      markPass g sessionId =
        (some (activeId, session1.round.activePlayerId),
          { g with sessions := aset g.sessions sessionId session1 }) ∧
      session1.round.buzzQueue =
        renumber (session.round.buzzQueue.filter (fun b => b.playerId != activeId)) ∧
      session1.round.activePlayerId =
        (session1.round.buzzQueue.head?).map (fun b => b.playerId) ∧
      session1.round.status = session.round.status ∧
      session1.round.questionNumber = session.round.questionNumber ∧
      session1.round.startedAt = session.round.startedAt ∧
      session1.round.lockedAt = session.round.lockedAt ∧
      session1.players = session.players ∧
      session1.teams = session.teams := by
  simp only [markPass, hs, ha]
  exact ⟨{ session with round := { session.round with
      buzzQueue :=
        renumber (session.round.buzzQueue.filter (fun b => b.playerId != activeId))
      activePlayerId :=
        ((renumber (session.round.buzzQueue.filter
          (fun b => b.playerId != activeId))).head?).map (fun b => b.playerId) } },
    rfl, rfl, rfl, rfl, rfl, rfl, rfl, rfl, rfl⟩

/-! ### Claim C3 -/

/-- C3 amended: for every session with a non-null activePlayerId, markPass
removes the entries of the active player from the buzz queue, renumbers
the remaining entries starting at 1 keeping all their other fields, and
sets activePlayerId to the playerId of the new queue head (null when the
queue is empty); the round status is left unchanged, also when the queue
becomes empty — the transition to waiting happens only in advanceQueue,
which markPass does not call. -/
theorem markPass_spec :
    ∀ (g : GameStateManager) (sessionId : String) (session : GameSession)
      (activeId : String),
      alookup g.sessions sessionId = some session →
      session.round.activePlayerId = some activeId →
      ((markPass g sessionId).1).map Prod.fst = some activeId ∧
      (alookup (markPass g sessionId).2.sessions sessionId).map
          (fun s => s.round.buzzQueue.map entryData) =
        some ((session.round.buzzQueue.filter
          (fun b => b.playerId != activeId)).map entryData) ∧
      (alookup (markPass g sessionId).2.sessions sessionId).map
          (fun s => s.round.buzzQueue.map (fun b => b.position)) =
        some (List.range' 1 (session.round.buzzQueue.filter
          (fun b => b.playerId != activeId)).length) ∧
      (alookup (markPass g sessionId).2.sessions sessionId).map
          (fun s => s.round.activePlayerId) =
        (alookup (markPass g sessionId).2.sessions sessionId).map
          (fun s => (s.round.buzzQueue.head?).map (fun b => b.playerId)) ∧
      ((markPass g sessionId).1).map Prod.snd =
        (alookup (markPass g sessionId).2.sessions sessionId).map
          (fun s => s.round.activePlayerId) ∧
      (alookup (markPass g sessionId).2.sessions sessionId).map
          (fun s => s.round.status) = some session.round.status ∧
      (alookup (markPass g sessionId).2.sessions sessionId).map
          (fun s => s.round.questionNumber) = some session.round.questionNumber ∧
      (alookup (markPass g sessionId).2.sessions sessionId).map
          (fun s => s.round.startedAt) = some session.round.startedAt ∧
      (alookup (markPass g sessionId).2.sessions sessionId).map
          (fun s => s.round.lockedAt) = some session.round.lockedAt := by
  intro g sessionId session activeId hs ha
  obtain ⟨session1, heq, hq, hact, hst, hqn, hsa, hla, -, -⟩ :=
    markPass_core g sessionId session activeId hs ha
  have hlook : alookup (aset g.sessions sessionId session1) sessionId = some session1 :=
    alookup_aset_self _ _ _
  rw [heq]
  refine ⟨rfl, ?_, ?_, ?_, ?_, ?_, ?_, ?_, ?_⟩
  · simp [hlook, hq, renumber_data]
  · simp [hlook, hq, renumber_positions]
  · simp [hlook, hact]
  · simp [hlook]
  · simp [hlook, hst]
  · simp [hlook, hqn]
  · simp [hlook, hsa]
  · simp [hlook, hla]

/-- The single queue entry of the C3 counterexample session. -/
def entryA1 : BuzzEntry :=
  { playerId := "PA", playerName := "Alice", teamId := none, teamName := none,
    teamColor := none, timestamp := 10, position := 1 }

/-- Session locked on Alice, who is the only queued player. -/
def sessC3 : GameSession :=
  { id := "S3", hostSocketId := "h", createdAt := 0, settings := DEFAULT_SETTINGS,
    teams := [], players := [("PA", pA)],
    round := { status := "locked", questionNumber := 1, startedAt := some 0,
               lockedAt := some 10, activePlayerId := some "PA",
               buzzQueue := [entryA1] },
    roundHistory := [] }

/-- Manager of the C3 counterexample. -/
def gC3 : GameStateManager :=
  { sessions := [("S3", sessC3)], playerToSession := [("PA", "S3")],
    socketToPlayer := [("sa", "PA")], playerBuzzTimestamps := [("PA", 10)] }

/-- Counterexample to C3 as stated: passing the only queued player empties
the queue and clears activePlayerId, but the round status stays locked —
it does not become waiting. -/
theorem markPass_empty_queue_counterexample :
    (markPass gC3 "S3").1 = some ("PA", none) ∧
    (alookup (markPass gC3 "S3").2.sessions "S3").map
        (fun s => (s.round.status, s.round.activePlayerId, s.round.buzzQueue)) =
      some ("locked", none, []) ∧
    "locked" ≠ "waiting" :=
  ⟨rfl, rfl, by decide⟩

/-- Witness for C3 at the concrete state gC3. -/
theorem markPass_spec_witness :
    ((markPass gC3 "S3").1).map Prod.fst = some "PA" ∧
    (alookup (markPass gC3 "S3").2.sessions "S3").map
        (fun s => s.round.buzzQueue.map entryData) =
      some ((sessC3.round.buzzQueue.filter
        (fun b => b.playerId != "PA")).map entryData) ∧
    (alookup (markPass gC3 "S3").2.sessions "S3").map
        (fun s => s.round.buzzQueue.map (fun b => b.position)) =
      some (List.range' 1 (sessC3.round.buzzQueue.filter
        (fun b => b.playerId != "PA")).length) ∧
    (alookup (markPass gC3 "S3").2.sessions "S3").map
        (fun s => s.round.activePlayerId) =
      (alookup (markPass gC3 "S3").2.sessions "S3").map
        (fun s => (s.round.buzzQueue.head?).map (fun b => b.playerId)) ∧
    ((markPass gC3 "S3").1).map Prod.snd =
      (alookup (markPass gC3 "S3").2.sessions "S3").map
        (fun s => s.round.activePlayerId) ∧
    (alookup (markPass gC3 "S3").2.sessions "S3").map
        (fun s => s.round.status) = some sessC3.round.status ∧
    (alookup (markPass gC3 "S3").2.sessions "S3").map
        (fun s => s.round.questionNumber) = some sessC3.round.questionNumber ∧
    (alookup (markPass gC3 "S3").2.sessions "S3").map
        (fun s => s.round.startedAt) = some sessC3.round.startedAt ∧
    (alookup (markPass gC3 "S3").2.sessions "S3").map
        (fun s => s.round.lockedAt) = some sessC3.round.lockedAt :=
  markPass_spec gC3 "S3" sessC3 "PA" rfl rfl

/-! ### Claim C4 -/

/-- C4 amended: skipPlayer and markPass leave the remaining queue renumbered
1..k with the other entry fields intact; removePlayer (kick) removes the
entries of the kicked player from the queue but does not renumber, so the
remaining entries keep their original positions and gaps can remain. -/
theorem queue_removal_renumber_spec :
    (∀ (g : GameStateManager) (sessionId playerId : String) (session : GameSession),
      alookup g.sessions sessionId = some session →
      (alookup (skipPlayer g sessionId playerId).2.sessions sessionId).map
          (fun s => s.round.buzzQueue.map entryData) =
        some ((session.round.buzzQueue.filter
          (fun b => b.playerId != playerId)).map entryData) ∧
      (alookup (skipPlayer g sessionId playerId).2.sessions sessionId).map
          (fun s => s.round.buzzQueue.map (fun b => b.position)) =
        some (List.range' 1 (session.round.buzzQueue.filter
          (fun b => b.playerId != playerId)).length)) ∧
    (∀ (g : GameStateManager) (sessionId : String) (session : GameSession)
      (activeId : String),
      alookup g.sessions sessionId = some session →
      session.round.activePlayerId = some activeId →
      (alookup (markPass g sessionId).2.sessions sessionId).map
          (fun s => s.round.buzzQueue.map (fun b => b.position)) =
        some (List.range' 1 (session.round.buzzQueue.filter
          (fun b => b.playerId != activeId)).length)) ∧
    (∀ (g : GameStateManager) (sessionId playerId : String) (session : GameSession),
      alookup g.sessions sessionId = some session →
      (alookup (removePlayer g sessionId playerId).sessions sessionId).map
          (fun s => s.round.buzzQueue) =
        some (session.round.buzzQueue.filter (fun b => b.playerId != playerId))) := by
  refine ⟨?_, ?_, ?_⟩
  · intro g sessionId playerId session hs
    simp only [skipPlayer, hs]
    constructor
    · split
      · simp [alookup_aset_self, advanceQueue_queue, renumber_data]
      · simp [alookup_aset_self, renumber_data]
    · split
      · simp [alookup_aset_self, advanceQueue_queue, renumber_positions]
      · simp [alookup_aset_self, renumber_positions]
  · intro g sessionId session activeId hs ha
    obtain ⟨session1, heq, hq, -, -, -, -, -, -, -⟩ :=
      markPass_core g sessionId session activeId hs ha
    rw [heq]
    have hlook : alookup (aset g.sessions sessionId session1) sessionId = some session1 :=
      alookup_aset_self _ _ _
    simp [hlook, hq, renumber_positions]
  · intro g sessionId playerId session hs
    simp only [removePlayer, hs]
    cases hp : alookup session.players playerId with
    | none =>
      simp only [hp]
      split
      · simp [alookup_aset_self, advanceQueue_queue]
      · simp [alookup_aset_self]
    | some player =>
      simp only [hp]
      split
      · simp [alookup_aset_self, advanceQueue_queue]
      · simp [alookup_aset_self]

/-- Cara, a third teamless player, queued behind Alice and Bob. -/
def pCar : Player :=
  { id := "PC", socketId := "sc", displayName := "Cara", teamId := none,
    isConnected := true, lastSeen := 0 }

/-- Queue entry of Bob at position 2. -/
def entryB2 : BuzzEntry :=
  { playerId := "PB", playerName := "Bob", teamId := none, teamName := none,
    teamColor := none, timestamp := 20, position := 2 }

/-- Queue entry of Cara at position 3. -/
def entryC3q : BuzzEntry :=
  { playerId := "PC", playerName := "Cara", teamId := none, teamName := none,
    teamColor := none, timestamp := 30, position := 3 }

/-- Session with queue Alice 1, Bob 2, Cara 3, Alice active. -/
def sessC4 : GameSession :=
  { id := "S4", hostSocketId := "h", createdAt := 0, settings := DEFAULT_SETTINGS,
    teams := [], players := [("PA", pA), ("PB", pBob), ("PC", pCar)],
    round := { status := "locked", questionNumber := 1, startedAt := some 0,
               lockedAt := some 10, activePlayerId := some "PA",
               buzzQueue := [entryA1, entryB2, entryC3q] },
    roundHistory := [] }

/-- Manager of the C4 counterexample. -/
def gC4 : GameStateManager :=
  { sessions := [("S4", sessC4)],
    playerToSession := [("PA", "S4"), ("PB", "S4"), ("PC", "S4")],
    socketToPlayer := [("sa", "PA"), ("sb", "PB"), ("sc", "PC")],
    playerBuzzTimestamps := [] }

/-- Counterexample to C4 as stated: kicking Bob (queued at position 2 of 3)
through removePlayer leaves the queue with positions 1 and 3 — not the
gap-free 1..2 the claim promises for every removal path. -/
theorem removePlayer_positions_counterexample :
    (alookup (removePlayer gC4 "S4" "PB").sessions "S4").map
        (fun s => s.round.buzzQueue.map (fun b => b.position)) = some [1, 3] ∧
    some [1, 3] ≠ some (List.range' 1 2) :=
  ⟨rfl, by decide⟩

/-- Witness for C4 at the concrete state gC4 (skip Cara, pass Alice, kick Bob). -/
theorem queue_removal_renumber_spec_witness :
    ((alookup (skipPlayer gC4 "S4" "PC").2.sessions "S4").map
        (fun s => s.round.buzzQueue.map entryData) =
      some ((sessC4.round.buzzQueue.filter
        (fun b => b.playerId != "PC")).map entryData) ∧
      (alookup (skipPlayer gC4 "S4" "PC").2.sessions "S4").map
          (fun s => s.round.buzzQueue.map (fun b => b.position)) =
        some (List.range' 1 (sessC4.round.buzzQueue.filter
          (fun b => b.playerId != "PC")).length)) ∧
    (alookup (markPass gC4 "S4").2.sessions "S4").map
        (fun s => s.round.buzzQueue.map (fun b => b.position)) =
      some (List.range' 1 (sessC4.round.buzzQueue.filter
        (fun b => b.playerId != "PA")).length) ∧
    (alookup (removePlayer gC4 "S4" "PB").sessions "S4").map
        (fun s => s.round.buzzQueue) =
      some (sessC4.round.buzzQueue.filter (fun b => b.playerId != "PB")) :=
  ⟨queue_removal_renumber_spec.1 gC4 "S4" "PC" sessC4 rfl,
   queue_removal_renumber_spec.2.1 gC4 "S4" sessC4 "PA" rfl rfl,
   queue_removal_renumber_spec.2.2 gC4 "S4" "PB" sessC4 rfl⟩

/-! ### Claim C5 -/

/-- C5 amended: addPlayer fails with the capacity error exactly when the
total number of stored players of the session — connected and disconnected
alike — is at least the configured maximum (default 50); a disconnection
does not free capacity, only full removal does. -/
theorem addPlayer_capacity_spec :
    (∀ (g : GameStateManager) (sessionId socketId displayName freshId : String)
      (now : Nat) (session : GameSession),
      alookup g.sessions sessionId = some session →
      ((addPlayer g sessionId socketId displayName freshId now).1 =
          Except.error "Session is full" ↔
        session.players.length ≥ session.settings.maxPlayersPerSession)) ∧
    DEFAULT_SETTINGS.maxPlayersPerSession = 50 := by
  refine ⟨?_, rfl⟩
  intro g sessionId socketId displayName freshId now session hs
  simp only [addPlayer, hs]
  by_cases hcap : session.players.length ≥ session.settings.maxPlayersPerSession
  · simp [hcap]
  · simp only [if_neg hcap]
    constructor
    · intro habs
      exfalso
      revert habs
      split
      · intro habs
        injection habs with habs
        exact absurd habs (by decide)
      · intro habs
        exact Except.noConfusion habs
    · intro h
      exact absurd h hcap

/-- Dan, a disconnected player still stored in the session. -/
def pDan : Player :=
  { id := "PD", socketId := "sd", displayName := "Dan", teamId := none,
    isConnected := false, lastSeen := 40 }

/-- Session with capacity 1 whose only stored player is disconnected. -/
def sessC5 : GameSession :=
  { id := "S5", hostSocketId := "h", createdAt := 0,
    settings := { DEFAULT_SETTINGS with maxPlayersPerSession := 1 },
    teams := [], players := [("PD", pDan)],
    round := createInitialRoundState, roundHistory := [] }

/-- Manager of the C5 counterexample. -/
def gC5 : GameStateManager :=
  { sessions := [("S5", sessC5)], playerToSession := [("PD", "S5")],
    socketToPlayer := [("sd", "PD")], playerBuzzTimestamps := [] }

/-- Counterexample to C5 as stated: the session has zero connected players,
strictly fewer than the maximum of 1, yet a new join is rejected for
capacity — the check counts disconnected players too. -/
theorem addPlayer_capacity_counterexample :
    ((avalues sessC5.players).filter (fun p => p.isConnected)).length = 0 ∧
    0 < sessC5.settings.maxPlayersPerSession ∧
    (addPlayer gC5 "S5" "snew" "Eve" "PE" 100).1 = Except.error "Session is full" :=
  ⟨rfl, by decide, rfl⟩

/-- Witness for C5 at the concrete state gC5. -/
theorem addPlayer_capacity_spec_witness :
    (addPlayer gC5 "S5" "snew" "Eve" "PE" 100).1 = Except.error "Session is full" ↔
      sessC5.players.length ≥ sessC5.settings.maxPlayersPerSession :=
  addPlayer_capacity_spec.1 gC5 "S5" "snew" "Eve" "PE" 100 sessC5 rfl

/-! ### Claim C8 -/

/-- C8: when the session exists and is not at capacity, addPlayer fails
with the name-taken error exactly when some currently connected player has
the same display name case-insensitively; disconnected players with the
name do not block the join. -/
theorem addPlayer_name_check_spec :
    ∀ (g : GameStateManager) (sessionId socketId displayName freshId : String)
      (now : Nat) (session : GameSession),
      alookup g.sessions sessionId = some session →
      session.players.length < session.settings.maxPlayersPerSession →
      (((addPlayer g sessionId socketId displayName freshId now).1 =
          Except.error "Name already taken") ↔
        ∃ p ∈ avalues session.players,
          toLowerStr p.displayName = toLowerStr displayName ∧ p.isConnected = true) := by
  intro g sessionId socketId displayName freshId now session hs hcap
  have hcap2 : ¬ session.players.length ≥ session.settings.maxPlayersPerSession :=
    Nat.not_le.mpr hcap
  simp only [addPlayer, hs, if_neg hcap2]
  cases hfind : (avalues session.players).find?
      (fun p => toLowerStr p.displayName == toLowerStr displayName && p.isConnected) with
  | none =>
    simp only [hfind, Option.isSome_none, Bool.false_eq_true, if_false]
    constructor
    · intro habs
      exact Except.noConfusion habs
    · rintro ⟨p, hp, hname, hconn⟩
      have hnone := List.find?_eq_none.mp hfind p hp
      simp [hname, hconn] at hnone
  | some p0 =>
    simp only [hfind, Option.isSome_some, if_true]
    constructor
    · intro hres
      have hp0 := List.find?_some hfind
      have hmem := List.mem_of_find?_eq_some hfind
      simp only [Bool.and_eq_true, beq_iff_eq] at hp0
      exact ⟨p0, hmem, hp0.1, hp0.2⟩
    · intro hex
      trivial

/-- Session holding the connected Alice and the disconnected Dan. -/
def sessC8 : GameSession :=
  { id := "S8", hostSocketId := "h", createdAt := 0, settings := DEFAULT_SETTINGS,
    teams := [], players := [("PA", pA), ("PD", pDan)],
    round := createInitialRoundState, roundHistory := [] }

/-- Manager of the C8 witness. -/
def gC8 : GameStateManager :=
  { sessions := [("S8", sessC8)], playerToSession := [("PA", "S8"), ("PD", "S8")],
    socketToPlayer := [("sa", "PA"), ("sd", "PD")], playerBuzzTimestamps := [] }

/-- Witness for C8: joining as alice (Alice is connected) is name-blocked,
while joining as dan (Dan is disconnected) goes through and stores a third
player. -/
theorem addPlayer_name_check_spec_witness :
    (addPlayer gC8 "S8" "s1" "alice" "PX" 50).1 = Except.error "Name already taken" ∧
    (alookup (addPlayer gC8 "S8" "s2" "dan" "PY" 50).2.sessions "S8").map
        (fun s => s.players.length) = some 3 :=
  ⟨(addPlayer_name_check_spec gC8 "S8" "s1" "alice" "PX" 50 sessC8 rfl
      (by decide)).mpr ⟨pA, by decide, by decide, rfl⟩,
   rfl⟩

/-! ### Claim C7 -/

theorem updateTeamScoreList_not_mem (teams : List Team) (tid : String) (delta : Int)
    (h : ∀ t ∈ teams, t.id ≠ tid) : updateTeamScoreList teams tid delta = teams := by
  induction teams with
  | nil => rfl
  | cons t ts ih =>
    have ht := h t (List.mem_cons_self _ _)
    simp only [updateTeamScoreList, beq_iff_eq, ht, if_false]
    rw [ih (fun t2 ht2 => h t2 (List.mem_cons_of_mem _ ht2))]

theorem map_teamScore_not_mem (teams : List Team) (tid : String) (delta : Int)
    (h : ∀ t ∈ teams, t.id ≠ tid) :
    teams.map (fun t => if t.id = tid then { t with score := t.score + delta } else t) =
      teams := by
  induction teams with
  | nil => rfl
  | cons t ts ih =>
    have ht := h t (List.mem_cons_self _ _)
    simp only [List.map_cons, ht, if_false]
    rw [ih (fun t2 ht2 => h t2 (List.mem_cons_of_mem _ ht2))]

theorem updateTeamScoreList_eq_map (teams : List Team) (tid : String) (delta : Int)
    (hnd : (teams.map (fun t => t.id)).Nodup) :
    updateTeamScoreList teams tid delta =
      teams.map (fun t =>
        if t.id = tid then { t with score := t.score + delta } else t) := by
  induction teams with
  | nil => rfl
  | cons t ts ih =>
    simp only [List.map_cons, List.nodup_cons] at hnd
    by_cases h : t.id = tid
    · subst h
      simp only [updateTeamScoreList, beq_self_eq_true, if_true, List.map_cons,
        if_pos rfl]
      rw [map_teamScore_not_mem ts t.id delta]
      intro t2 ht2 heq
      exact hnd.1 (heq ▸ List.mem_map_of_mem (fun t => t.id) ht2)
    · simp only [updateTeamScoreList, beq_iff_eq, h, if_false, List.map_cons,
        if_neg h]
      rw [ih hnd.2]

/-- C7: for every session with a non-null activePlayerId whose player record
exists and whose team ids are distinct, markCorrect returns a RoundResult
carrying the current question number, the active player as winner, and the
queue length as buzz count; appends it to the round history; adds exactly
one point to the team whose id the active player carries and changes no
other team; and leaves the round ended with an empty queue, null
activePlayerId and the question number unchanged. -/
theorem markCorrect_spec :
    ∀ (g : GameStateManager) (sessionId : String) (now : Nat) (session : GameSession)
      (activeId : String) (player : Player),
      alookup g.sessions sessionId = some session →
      session.round.activePlayerId = some activeId →
      alookup session.players activeId = some player →
      (session.teams.map (fun t => t.id)).Nodup →
      ((markCorrect g sessionId now).1).map (fun r => r.questionNumber) =
        some session.round.questionNumber ∧
      ((markCorrect g sessionId now).1).map (fun r => r.winnerId) =
        some (some activeId) ∧
      ((markCorrect g sessionId now).1).map (fun r => r.winnerName) =
        some (some player.displayName) ∧
      ((markCorrect g sessionId now).1).map (fun r => r.buzzCount) =
        some session.round.buzzQueue.length ∧
      (alookup (markCorrect g sessionId now).2.sessions sessionId).map
          (fun s => s.roundHistory) =
        ((markCorrect g sessionId now).1).map
          (fun r => session.roundHistory ++ [r]) ∧
      (alookup (markCorrect g sessionId now).2.sessions sessionId).map
          (fun s => s.round.status) = some "ended" ∧
      (alookup (markCorrect g sessionId now).2.sessions sessionId).map
          (fun s => s.round.buzzQueue) = some [] ∧
      (alookup (markCorrect g sessionId now).2.sessions sessionId).map
          (fun s => s.round.activePlayerId) = some none ∧
      (alookup (markCorrect g sessionId now).2.sessions sessionId).map
          (fun s => s.round.questionNumber) = some session.round.questionNumber ∧
      (alookup (markCorrect g sessionId now).2.sessions sessionId).map
          (fun s => s.teams) =
        some (session.teams.map (fun t =>
          if player.teamId = some t.id then { t with score := t.score + 1 } else t)) := by
  intro g sessionId now session activeId player hs ha hp hnd
  simp only [markCorrect, hs, ha, hp]
  refine ⟨rfl, rfl, rfl, rfl, ?_, ?_, ?_, ?_, ?_, ?_⟩
  · simp [alookup_aset_self]
  · simp [alookup_aset_self]
  · simp [alookup_aset_self]
  · simp [alookup_aset_self]
  · simp [alookup_aset_self]
  · simp only [Option.some_bind]
    cases hteam : player.teamId with
    | none =>
      simp [alookup_aset_self]
    | some tid =>
      have hfun : (fun (t : Team) =>
          if some tid = some t.id then { t with score := t.score + 1 } else t) =
          (fun (t : Team) =>
          if t.id = tid then { t with score := t.score + 1 } else t) := by
        funext t
        by_cases h : t.id = tid
        · subst h
          simp
        · have h2 : ¬ (some tid = some t.id) := by
            intro hh
            injection hh with hh
            exact h hh.symm
          simp [h, h2]
      simp [alookup_aset_self, hfun, updateTeamScoreList_eq_map _ _ _ hnd]
      intro a ha2
      by_cases h : a.id = tid
      · subst h
        simp
      · have h2 : ¬ tid = a.id := fun hh => h hh.symm
        simp [h, h2]

/-- Queue entry of Bob with his team snapshot, used by the C7 witness. -/
def entryBobQ : BuzzEntry :=
  { playerId := "PB", playerName := "Bob", teamId := some "T1",
    teamName := some "Reds", teamColor := some "#FF2D55", timestamp := 10,
    position := 1 }

/-- Session locked on Bob (team T1), question 2, one queue entry. -/
def sessC7 : GameSession :=
  { id := "S7", hostSocketId := "h", createdAt := 0, settings := settingsC2,
    teams := [teamT1], players := [("PB", pBob)],
    round := { status := "locked", questionNumber := 2, startedAt := some 5,
               lockedAt := some 10, activePlayerId := some "PB",
               buzzQueue := [entryBobQ] },
    roundHistory := [] }

/-- Manager of the C7 witness. -/
def gC7 : GameStateManager :=
  { sessions := [("S7", sessC7)], playerToSession := [("PB", "S7")],
    socketToPlayer := [("sb", "PB")], playerBuzzTimestamps := [] }

/-- Witness for C7 at the concrete state gC7. -/
theorem markCorrect_spec_witness :
    ((markCorrect gC7 "S7" 60).1).map (fun r => r.questionNumber) =
      some sessC7.round.questionNumber ∧
    ((markCorrect gC7 "S7" 60).1).map (fun r => r.winnerId) = some (some "PB") ∧
    ((markCorrect gC7 "S7" 60).1).map (fun r => r.winnerName) =
      some (some pBob.displayName) ∧
    ((markCorrect gC7 "S7" 60).1).map (fun r => r.buzzCount) =
      some sessC7.round.buzzQueue.length ∧
    (alookup (markCorrect gC7 "S7" 60).2.sessions "S7").map
        (fun s => s.roundHistory) =
      ((markCorrect gC7 "S7" 60).1).map (fun r => sessC7.roundHistory ++ [r]) ∧
    (alookup (markCorrect gC7 "S7" 60).2.sessions "S7").map
        (fun s => s.round.status) = some "ended" ∧
    (alookup (markCorrect gC7 "S7" 60).2.sessions "S7").map
        (fun s => s.round.buzzQueue) = some [] ∧
    (alookup (markCorrect gC7 "S7" 60).2.sessions "S7").map
        (fun s => s.round.activePlayerId) = some none ∧
    (alookup (markCorrect gC7 "S7" 60).2.sessions "S7").map
        (fun s => s.round.questionNumber) = some sessC7.round.questionNumber ∧
    (alookup (markCorrect gC7 "S7" 60).2.sessions "S7").map
        (fun s => s.teams) =
      some (sessC7.teams.map (fun t =>
        if pBob.teamId = some t.id then { t with score := t.score + 1 } else t)) :=
  markCorrect_spec gC7 "S7" 60 sessC7 "PB" pBob rfl rfl rfl (by decide)

/-! ### Claim C6 -/

/-- C6 amended: every generated session code has 6 characters drawn from the
fixed 32-character alphabet that excludes the ambiguous O, 0, I and 1, and
createSession stores the new session under that code; but no uniqueness
check is made against live sessions — the code is written with Map.set, so
a collision silently replaces the existing session instead of being
retried. -/
theorem createSession_code_spec :
    (∀ rand : Fin 6 → Fin 32,
      (generateSessionId rand).length = 6 ∧
      ∀ c ∈ (generateSessionId rand).toList, c ∈ sessionIdChars.toList) ∧
    ('O' ∉ sessionIdChars.toList ∧ '0' ∉ sessionIdChars.toList ∧
      'I' ∉ sessionIdChars.toList ∧ '1' ∉ sessionIdChars.toList) ∧
    (∀ (g : GameStateManager) (hostSocketId : String) (rand : Fin 6 → Fin 32)
      (now : Nat) (settings : PartialSettings),
      alookup ((createSession g hostSocketId rand now settings).2).sessions
          (generateSessionId rand) =
        some (createSession g hostSocketId rand now settings).1) := by
  refine ⟨?_, by decide, ?_⟩
  · intro rand
    constructor
    · show ((List.finRange 6).map
        (fun i => sessionIdChars.toList.getD (rand i) ' ')).length = 6
      simp
    · intro c hc
      have hall : ∀ i : Fin 32, sessionIdChars.toList.getD (i : Nat) ' ' ∈
          sessionIdChars.toList := by decide
      have hc2 : c ∈ (List.finRange 6).map
          (fun i => sessionIdChars.toList.getD (rand i) ' ') := hc
      obtain ⟨i, -, rfl⟩ := List.mem_map.mp hc2
      exact hall (rand i)
  · intro g hostSocketId rand now settings
    simp only [createSession]
    exact alookup_aset_self _ _ _

/-- A live session already holding the code AAAAAA. -/
def sessC6 : GameSession :=
  { id := "AAAAAA", hostSocketId := "h1", createdAt := 0,
    settings := DEFAULT_SETTINGS, teams := [], players := [],
    round := createInitialRoundState, roundHistory := [] }

/-- Manager of the C6 counterexample. -/
def gC6 : GameStateManager :=
  { sessions := [("AAAAAA", sessC6)], playerToSession := [],
    socketToPlayer := [], playerBuzzTimestamps := [] }

/-- Counterexample to C6 as stated: with random draws all zero the generated
code is AAAAAA, which collides with the live session of host h1; the
collision is not detected and the new session of host h2 silently replaces
it in the registry. -/
theorem createSession_collision_counterexample :
    generateSessionId (fun _ => (0 : Fin 32)) = "AAAAAA" ∧
    (alookup gC6.sessions "AAAAAA").map (fun s => s.hostSocketId) = some "h1" ∧
    (alookup ((createSession gC6 "h2" (fun _ => (0 : Fin 32)) 999 {}).2).sessions
        "AAAAAA").map (fun s => s.hostSocketId) = some "h2" ∧
    "h2" ≠ "h1" :=
  ⟨by decide, rfl, by decide, by decide⟩

/-- Witness for C6 with all draws equal to 3 (the letter D). -/
theorem createSession_code_spec_witness :
    (generateSessionId (fun _ => (3 : Fin 32))).length = 6 ∧
    'D' ∈ sessionIdChars.toList ∧
    alookup ((createSession gEmpty "hw" (fun _ => (3 : Fin 32)) 7 {}).2).sessions
        (generateSessionId (fun _ => (3 : Fin 32))) =
      some (createSession gEmpty "hw" (fun _ => (3 : Fin 32)) 7 {}).1 :=
  ⟨(createSession_code_spec.1 (fun _ => 3)).1,
   (createSession_code_spec.1 (fun _ => 3)).2 'D' (by decide),
   createSession_code_spec.2.2 gEmpty "hw" (fun _ => 3) 7 {}⟩

/-! ### Claim C9 -/

theorem adelete_of_lookup_none {α : Type} (m : AList α) (k : String)
    (h : alookup m k = none) : adelete m k = m := by
  induction m with
  | nil => rfl
  | cons e rest ih =>
    obtain ⟨k0, v0⟩ := e
    by_cases h0 : k0 = k
    · subst h0
      simp [alookup] at h
    · simp only [alookup, beq_iff_eq, h0, if_false] at h
      simp [adelete, h0, ih h]

theorem adelete_sublist {α : Type} (m : AList α) (k : String) :
    List.Sublist (adelete m k) m := by
  induction m with
  | nil => exact List.Sublist.refl _
  | cons e rest ih =>
    obtain ⟨k0, v0⟩ := e
    by_cases h : k0 = k
    · simp only [adelete, h, beq_self_eq_true, if_true]
      exact List.sublist_cons_self _ _
    · simp only [adelete, beq_iff_eq, h, if_false]
      exact List.Sublist.cons₂ _ ih

theorem foldl_lookups_sessions (l : List Player) (g : GameStateManager) :
    (l.foldl (fun acc p =>
      { acc with
        playerToSession := adelete acc.playerToSession p.id
        socketToPlayer := adelete acc.socketToPlayer p.socketId }) g).sessions =
      g.sessions := by
  induction l generalizing g with
  | nil => rfl
  | cons p l ih => exact ih _

theorem endSession_sessions (g : GameStateManager) (sessionId : String) :
    (endSession g sessionId).sessions = adelete g.sessions sessionId := by
  unfold endSession
  cases h : alookup g.sessions sessionId with
  | none => exact (adelete_of_lookup_none _ _ h).symm
  | some session =>
    dsimp only
    rw [foldl_lookups_sessions]

/-- The effect of the staleness sweep on the sessions map alone: walk the
entry list, deleting the key of each stale entry. -/
def sweepSessions (now maxAgeMs : Nat) :
    AList GameSession → List (String × GameSession) → AList GameSession
  | m, [] => m
  | m, e :: rest =>
    sweepSessions now maxAgeMs
      (if now - lastActivity e.2 > maxAgeMs then adelete m e.1 else m) rest

theorem cleanup_foldl_sessions (now maxAgeMs : Nat) :
    ∀ (l : List (String × GameSession)) (acc : GameStateManager),
      (l.foldl (fun acc entry =>
        if now - lastActivity entry.2 > maxAgeMs then endSession acc entry.1
        else acc) acc).sessions =
      sweepSessions now maxAgeMs acc.sessions l := by
  intro l
  induction l with
  | nil => intro acc; rfl
  | cons e rest ih =>
    intro acc
    simp only [List.foldl, sweepSessions]
    by_cases h : now - lastActivity e.2 > maxAgeMs
    · rw [if_pos h, if_pos h, ih, endSession_sessions]
    · rw [if_neg h, if_neg h, ih]

theorem cleanup_sessions_eq (g : GameStateManager) (now maxAgeMs : Nat) :
    (cleanupStaleSessions g now maxAgeMs).sessions =
      sweepSessions now maxAgeMs g.sessions g.sessions :=
  cleanup_foldl_sessions now maxAgeMs g.sessions g

theorem sweep_lookup_not_mem (now maxAgeMs : Nat) :
    ∀ (l : List (String × GameSession)) (m : AList GameSession) (sessionId : String),
      sessionId ∉ l.map Prod.fst →
      alookup (sweepSessions now maxAgeMs m l) sessionId = alookup m sessionId := by
  intro l
  induction l with
  | nil => intro m sid h; rfl
  | cons e rest ih =>
    intro m sid h
    simp only [List.map_cons, List.mem_cons, not_or] at h
    simp only [sweepSessions]
    by_cases hstale : now - lastActivity e.2 > maxAgeMs
    · rw [if_pos hstale, ih _ _ h.2]
      exact alookup_adelete_ne _ h.1
    · rw [if_neg hstale]
      exact ih _ _ h.2

theorem sweep_lookup (now maxAgeMs : Nat) :
    ∀ (l : List (String × GameSession)) (m : AList GameSession)
      (sessionId : String) (session : GameSession),
      (l.map Prod.fst).Nodup →
      (m.map Prod.fst).Nodup →
      (sessionId, session) ∈ l →
      alookup m sessionId = some session →
      alookup (sweepSessions now maxAgeMs m l) sessionId =
        (if now - lastActivity session > maxAgeMs then none else some session) := by
  intro l
  induction l with
  | nil =>
    intro m sid s hndl hndm hmem hlk
    simp at hmem
  | cons e rest ih =>
    obtain ⟨k, s0⟩ := e
    intro m sid s hndl hndm hmem hlk
    simp only [List.map_cons, List.nodup_cons] at hndl
    simp only [sweepSessions]
    rcases List.mem_cons.1 hmem with h1 | h1
    · injection h1 with hk hs
      subst hk
      subst hs
      by_cases hstale : now - lastActivity s > maxAgeMs
      · rw [if_pos hstale, if_pos hstale,
          sweep_lookup_not_mem now maxAgeMs rest _ _ hndl.1]
        exact alookup_adelete_self m sid hndm
      · rw [if_neg hstale, if_neg hstale,
          sweep_lookup_not_mem now maxAgeMs rest _ _ hndl.1]
        exact hlk
    · have hksid : k ≠ sid := by
        rintro rfl
        exact hndl.1 (List.mem_map_of_mem Prod.fst h1)
      by_cases hstale0 : now - lastActivity s0 > maxAgeMs
      · rw [if_pos hstale0]
        refine ih (adelete m k) sid s hndl.2 ?_ h1 ?_
        · exact hndm.sublist ((adelete_sublist m k).map Prod.fst)
        · rw [alookup_adelete_ne m (Ne.symm hksid)]
          exact hlk
      · rw [if_neg hstale0]
        exact ih m sid s hndl.2 hndm h1 hlk

/-- C9: the staleness sweep ends exactly the sessions whose last activity —
max of the creation time and every stored player's last-seen stamp, as
computed by lastActivity — lies strictly more than maxAgeMs before now:
such sessions disappear from the registry, all others survive untouched.
In particular a session exactly maxAgeMs old is retained and one
maxAgeMs + 1 old is removed. -/
theorem cleanupStaleSessions_spec :
    ∀ (g : GameStateManager) (now maxAgeMs : Nat) (sessionId : String)
      (session : GameSession),
      (g.sessions.map Prod.fst).Nodup →
      (sessionId, session) ∈ g.sessions →
      alookup (cleanupStaleSessions g now maxAgeMs).sessions sessionId =
        (if now - lastActivity session > maxAgeMs then none else some session) := by
  intro g now maxAgeMs sessionId session hnd hmem
  rw [cleanup_sessions_eq]
  exact sweep_lookup now maxAgeMs g.sessions g.sessions sessionId session hnd hnd
    hmem (alookup_of_mem_nodup hnd hmem)

/-- A session whose last activity is 1001 ms before the sweep at 2001. -/
def sessStale : GameSession :=
  { id := "SO", hostSocketId := "h", createdAt := 1000,
    settings := DEFAULT_SETTINGS, teams := [], players := [],
    round := createInitialRoundState, roundHistory := [] }

/-- A session whose last activity is exactly 1000 ms before the sweep. -/
def sessFresh : GameSession :=
  { id := "SK", hostSocketId := "h", createdAt := 1001,
    settings := DEFAULT_SETTINGS, teams := [], players := [],
    round := createInitialRoundState, roundHistory := [] }

/-- Manager of the C9 witness. -/
def gC9 : GameStateManager :=
  { sessions := [("SO", sessStale), ("SK", sessFresh)], playerToSession := [],
    socketToPlayer := [], playerBuzzTimestamps := [] }

/-- Witness for C9 at the boundary: sweeping at time 2001 with maxAge 1000
removes the session last active at 1000 (maxAge + 1 in the past) and keeps
the one last active at 1001 (exactly maxAge in the past). -/
theorem cleanupStaleSessions_spec_witness :
    alookup (cleanupStaleSessions gC9 2001 1000).sessions "SO" = none ∧
    alookup (cleanupStaleSessions gC9 2001 1000).sessions "SK" = some sessFresh := by
  constructor
  · have h := cleanupStaleSessions_spec gC9 2001 1000 "SO" sessStale
      (by decide) (by decide)
    rwa [if_pos (by decide)] at h
  · have h := cleanupStaleSessions_spec gC9 2001 1000 "SK" sessFresh
      (by decide) (by decide)
    rwa [if_neg (by decide)] at h

end Buzzer
